import Mathlib

/-!
Verification of `trading_bot.py` (Binance Futures testnet trading bot).

A shallow embedding of the signed-request construction of the bot
(`BinanceFuturesREST._sign` / `_request`), its order-parameter builders
(`TradingBot.place_market_order` / `place_limit_order` / `place_stop_order`,
`BinanceFuturesREST.get_order`), its credential resolution
(`load_dotenv()` + `main`), and the `main` order workflow, together with
theorems settling the specification claims about them.

Machine integers are modelled as `Nat` with explicit reduction modulo `2^32`
(resp. `256`) where the fixed-width arithmetic of the source matters.  Python
dicts that the program builds are modelled as insertion-ordered association
lists (`List (String × _)`), which is exactly the observable behaviour of
CPython 3.7+ dicts for the operations the program performs (insert-or-update
and iteration in insertion order).  HTTP transport is modelled as an oracle
(`Except String JVal`) supplied to the workflow.
-/

namespace TradingBot

/-! ## 32-bit word arithmetic -/

/-- Truncation to a 32-bit word. -/
def w32 (n : Nat) : Nat := n % 4294967296

/-- 32-bit right rotation (operand assumed `< 2^32`). -/
def rotr (n x : Nat) : Nat := w32 ((x >>> n) ||| (x <<< (32 - n)))

/-- 32-bit logical right shift. -/
def shr (n x : Nat) : Nat := x >>> n

/-! ## SHA-256 (FIPS 180-4), byte-list based

Faithful executable model of `hashlib.sha256` on byte sequences: messages
and digests are `List Nat` with every element a byte value. -/

/-- The SHA-256 round constants. -/
def sha256K : List Nat :=
  [1116352408, 1899447441, 3049323471, 3921009573, 961987163,
   1508970993, 2453635748, 2870763221, 3624381080, 310598401,
   607225278, 1426881987, 1925078388, 2162078206, 2614888103,
   3248222580, 3835390401, 4022224774, 264347078, 604807628,
   770255983, 1249150122, 1555081692, 1996064986, 2554220882,
   2821834349, 2952996808, 3210313671, 3336571891, 3584528711,
   113926993, 338241895, 666307205, 773529912, 1294757372,
   1396182291, 1695183700, 1986661051, 2177026350, 2456956037,
   2730485921, 2820302411, 3259730800, 3345764771, 3516065817,
   3600352804, 4094571909, 275423344, 430227734, 506948616,
   659060556, 883997877, 958139571, 1322822218, 1537002063,
   1747873779, 1955562222, 2024104815, 2227730452, 2361852424,
   2428436474, 2756734187, 3204031479, 3329325298]

/-- The SHA-256 working state: eight 32-bit words. -/
structure Sha256State where
  a : Nat
  b : Nat
  c : Nat
  d : Nat
  e : Nat
  f : Nat
  g : Nat
  h : Nat
  deriving Repr, DecidableEq

/-- The SHA-256 initial hash value. -/
def sha256H0 : Sha256State :=
  ⟨1779033703, 3144134277, 1013904242, 2773480762,
   1359893119, 2600822924, 528734635, 1541459225⟩

/-- Number of zero bytes needed to pad a message of `len` bytes so that the
padded length is a multiple of 64. -/
def sha256PadZeros (len : Nat) : Nat := (64 - (len + 9) % 64) % 64

/-- Big-endian 8-byte encoding of a (bit-)length. -/
def lenBytes64 (n : Nat) : List Nat :=
  [n / 72057594037927936 % 256, n / 281474976710656 % 256,
   n / 1099511627776 % 256, n / 4294967296 % 256,
   n / 16777216 % 256, n / 65536 % 256, n / 256 % 256, n % 256]

/-- SHA-256 message padding: append `0x80`, zeros, and the 64-bit big-endian
bit length. -/
def sha256Pad (msg : List Nat) : List Nat :=
  msg ++ 128 :: List.replicate (sha256PadZeros msg.length) 0
      ++ lenBytes64 (msg.length * 8)

/-- Group four big-endian bytes at a time into 32-bit words. -/
def bytesToWords : List Nat → List Nat
  | b0 :: b1 :: b2 :: b3 :: rest =>
      (b0 * 16777216 + b1 * 65536 + b2 * 256 + b3) :: bytesToWords rest
  | _ => []

/-- Split a byte list into 64-byte chunks (fuel-driven so it is structural). -/
def toChunks64Aux : Nat → List Nat → List (List Nat)
  | 0, _ => []
  | _ + 1, [] => []
  | fuel + 1, l => l.take 64 :: toChunks64Aux fuel (l.drop 64)

/-- Split a byte list into 64-byte chunks. -/
def toChunks64 (l : List Nat) : List (List Nat) := toChunks64Aux l.length l

/-- Message-schedule extension step: the accumulator holds the schedule so
far, most recent word first. -/
def schedWord (acc : List Nat) : Nat :=
  let wim2 := acc.getD 1 0
  let wim7 := acc.getD 6 0
  let wim15 := acc.getD 14 0
  let wim16 := acc.getD 15 0
  let s0 := (rotr 7 wim15) ^^^ (rotr 18 wim15) ^^^ (shr 3 wim15)
  let s1 := (rotr 17 wim2) ^^^ (rotr 19 wim2) ^^^ (shr 10 wim2)
  w32 (wim16 + s0 + wim7 + s1)

/-- Extend the message schedule by `fuel` words. -/
def schedExtend : Nat → List Nat → List Nat
  | 0, acc => acc.reverse
  | fuel + 1, acc => schedExtend fuel (schedWord acc :: acc)

/-- The 64-word message schedule of one 64-byte chunk. -/
def sha256Schedule (chunk : List Nat) : List Nat :=
  schedExtend 48 (bytesToWords chunk).reverse

/-- One SHA-256 compression round; `wk` is the pair of the schedule word and
the round constant. -/
def sha256Round (st : Sha256State) (wk : Nat × Nat) : Sha256State :=
  let S1 := (rotr 6 st.e) ^^^ (rotr 11 st.e) ^^^ (rotr 25 st.e)
  let ch := (st.e &&& st.f) ^^^ ((st.e ^^^ 4294967295) &&& st.g)
  let temp1 := w32 (st.h + S1 + ch + wk.2 + wk.1)
  let S0 := (rotr 2 st.a) ^^^ (rotr 13 st.a) ^^^ (rotr 22 st.a)
  let maj := (st.a &&& st.b) ^^^ (st.a &&& st.c) ^^^ (st.b &&& st.c)
  let temp2 := w32 (S0 + maj)
  ⟨w32 (temp1 + temp2), st.a, st.b, st.c, w32 (st.d + temp1), st.e, st.f, st.g⟩

/-- Process one 64-byte chunk: run the 64 rounds and add the result into the
running hash value. -/
def sha256Chunk (H : Sha256State) (chunk : List Nat) : Sha256State :=
  let W := sha256Schedule chunk
  let st := (W.zip sha256K).foldl sha256Round H
  ⟨w32 (H.a + st.a), w32 (H.b + st.b), w32 (H.c + st.c), w32 (H.d + st.d),
   w32 (H.e + st.e), w32 (H.f + st.f), w32 (H.g + st.g), w32 (H.h + st.h)⟩

/-- Big-endian 4-byte decomposition of a 32-bit word. -/
def wordBytes (w : Nat) : List Nat :=
  [w / 16777216 % 256, w / 65536 % 256, w / 256 % 256, w % 256]

/-- Big-endian byte rendering of the final hash state. -/
def stateBytes (H : Sha256State) : List Nat :=
  wordBytes H.a ++ wordBytes H.b ++ wordBytes H.c ++ wordBytes H.d ++
  wordBytes H.e ++ wordBytes H.f ++ wordBytes H.g ++ wordBytes H.h

/-- SHA-256 of a byte list, as the 32-byte digest. -/
def sha256 (msg : List Nat) : List Nat :=
  stateBytes ((toChunks64 (sha256Pad msg)).foldl sha256Chunk sha256H0)

/-! ## HMAC-SHA256 (`hmac.new(key, msg, hashlib.sha256)`) -/

/-- HMAC key normalisation: hash keys longer than the 64-byte block, then
zero-pad to the block size. -/
def hmacKey (key : List Nat) : List Nat :=
  let k := if key.length > 64 then sha256 key else key
  k ++ List.replicate (64 - k.length) 0

/-- HMAC-SHA256 of `msg` under `key`, as the 32-byte digest. -/
def hmacSha256 (key msg : List Nat) : List Nat :=
  let k0 := hmacKey key
  let ipad := k0.map (· ^^^ 54)
  let opad := k0.map (· ^^^ 92)
  sha256 (opad ++ sha256 (ipad ++ msg))

/-! ## Lowercase hex rendering (`.hexdigest()`) -/

/-- A single lowercase hexadecimal digit. -/
def hexDigit (n : Nat) : Char :=
  if n < 10 then Char.ofNat (48 + n) else Char.ofNat (87 + n)

/-- Lowercase hexadecimal rendering of a byte list. -/
def bytesToHex (l : List Nat) : String :=
  String.mk (l.foldr (fun b acc => hexDigit (b / 16) :: hexDigit (b % 16) :: acc) [])

/-! ## UTF-8 encoding (`str.encode("utf-8")`) -/

/-- UTF-8 encoding of one code point. -/
def utf8Char (c : Char) : List Nat :=
  let n := c.toNat
  if n < 128 then [n]
  else if n < 2048 then [192 + n / 64, 128 + n % 64]
  else if n < 65536 then [224 + n / 4096, 128 + n / 64 % 64, 128 + n % 64]
  else [240 + n / 262144, 128 + n / 4096 % 64, 128 + n / 64 % 64, 128 + n % 64]

/-- UTF-8 encoding of a string as a byte list. -/
def utf8 (s : String) : List Nat :=
  s.data.foldr (fun c acc => utf8Char c ++ acc) []

/-! ## URL encoding (`urllib.parse.urlencode(params, doseq=True)`)

All values the program passes reach `urlencode` already rendered to
strings (`urlencode` applies `str` to non-string values); the model takes
the rendered strings.  String values are atomic under `doseq=True`, so
each key/value pair contributes one `quote_plus(k) + "=" + quote_plus(v)`
component, joined by `&` in insertion order. -/

/-- A character `quote_plus` leaves unquoted: ASCII alphanumerics and
`_ . - ~`. -/
def urlSafe (c : Char) : Bool :=
  c.isAlphanum || c = '_' || c = '.' || c = '-' || c = '~'

/-- An uppercase hexadecimal digit (percent-escapes use uppercase hex). -/
def hexDigitUpper (n : Nat) : Char :=
  if n < 10 then Char.ofNat (48 + n) else Char.ofNat (55 + n)

/-- Percent-escape of one byte, e.g. `%2B`. -/
def pctByte (b : Nat) : List Char :=
  ['%', hexDigitUpper (b / 16), hexDigitUpper (b % 16)]

/-- Model of `urllib.parse.quote_plus`: spaces become `+`, safe characters pass
through, everything else is percent-escaped per UTF-8 byte. -/
def quotePlus (s : String) : String :=
  String.mk (s.data.foldr
    (fun c acc =>
      if c = ' ' then '+' :: acc
      else if urlSafe c then c :: acc
      else (utf8Char c).foldr (fun b acc2 => pctByte b ++ acc2) acc)
    [])

/-- Model of `urllib.parse.urlencode` on an insertion-ordered string mapping. -/
def urlencode (params : List (String × String)) : String :=
  String.intercalate "&" (params.map (fun kv => quotePlus kv.1 ++ "=" ++ quotePlus kv.2))

/-! ## Python dicts as insertion-ordered association lists

`d[k] = v` on a CPython 3.7+ dict updates the value in place when `k` is
already present (keeping its position) and appends the pair otherwise. -/

/-- Ordered string parameters, as they stand when `urlencode` serializes
them. -/
abbrev Params := List (String × String)

/-- Assignment `d[k] = v` on an insertion-ordered dict. -/
def dictInsert (l : List (String × α)) (k : String) (v : α) : List (String × α) :=
  match l with
  | [] => [(k, v)]
  | (k', v') :: rest =>
      if k' = k then (k, v) :: rest else (k', v') :: dictInsert rest k v

/-- The keys of an insertion-ordered dict, in order. -/
def dictKeys (l : List (String × α)) : List String := l.map Prod.fst

/-- Lookup `d.get(k)` / `d[k]`: the value at the first (only) occurrence of `k`. -/
def dictGet (l : List (String × α)) (k : String) : Option α :=
  match l with
  | [] => none
  | (k', v) :: rest => if k' = k then some v else dictGet rest k

/-! ## `BinanceFuturesREST._sign` and the signed branch of `_request`

```python
def _sign(self, params: dict) -> str:
    query = urlencode(params, doseq=True)
    return hmac.new(self.api_secret, query.encode("utf-8"), hashlib.sha256).hexdigest()
```
`self.api_secret` is `api_secret.encode("utf-8")` from `__init__`. -/

/-- Model of `BinanceFuturesREST._sign`: lowercase-hex HMAC-SHA256, keyed by the
UTF-8 bytes of the API secret, of the UTF-8 bytes of the urlencoded query
string. -/
def sign (api_secret : String) (params : Params) : String :=
  bytesToHex (hmacSha256 (utf8 api_secret) (utf8 (urlencode params)))

/-- The signed branch of `BinanceFuturesREST._request`
(`params["timestamp"] = int(time.time() * 1000);
params["signature"] = self._sign(params)`): the final contents of the
params dict.  `now` is the millisecond clock value. -/
def prepareSigned (api_secret : String) (params : Params) (now : Nat) : Params :=
  let p := dictInsert params "timestamp" (toString now)
  dictInsert p "signature" (sign api_secret p)

/-- What the dict of the caller contains after `_request(..., signed=True)`
returns.  `_request` runs `params = params or {}`: when the caller passed
`None` (`none`) or an empty dict (falsy), a fresh dict is created and the
mapping of the caller is untouched; for a nonempty dict the same object is
mutated in place, so the caller observes the inserted `timestamp` and
`signature` fields. -/
def requestCallerParams (api_secret : String) (params : Option Params) (now : Nat) :
    Params :=
  match params with
  | none => []
  | some [] => []
  | some l => prepareSigned api_secret l now

/-! ## Python `str.upper` / `str.lower` (ASCII range)

The symbols and sides the program handles are ASCII; the model maps the
ASCII letter ranges exactly as CPython does there. -/

/-- Python `str.upper` on one character (ASCII range). -/
def pyUpperChar (c : Char) : Char :=
  if 97 ≤ c.toNat ∧ c.toNat ≤ 122 then Char.ofNat (c.toNat - 32) else c

/-- Python `str.lower` on one character (ASCII range). -/
def pyLowerChar (c : Char) : Char :=
  if 65 ≤ c.toNat ∧ c.toNat ≤ 90 then Char.ofNat (c.toNat + 32) else c

/-- Python `str.upper`. -/
def pyUpper (s : String) : String := String.mk (s.data.map pyUpperChar)

/-- Python `str.lower`. -/
def pyLower (s : String) : String := String.mk (s.data.map pyLowerChar)

/-! ## JSON-like values

Parameter values the bot passes (`str`, `float`) and response payloads
(`r.json()`) live in one value type.  Numbers are modelled as rationals:
every float the program handles is a parsed decimal literal. -/

/-- A Python/JSON value. -/
inductive JVal where
  | null
  | jbool (b : Bool)
  | jnum (q : ℚ)
  | jstr (s : String)
  | jarr (elems : List JVal)
  | jobj (fields : List (String × JVal))
  deriving Repr

/-- Python truthiness of a value. -/
def JVal.truthy : JVal → Bool
  | .null => false
  | .jbool b => b
  | .jnum q => q ≠ 0
  | .jstr s => s ≠ ""
  | .jarr elems => ¬ elems.isEmpty
  | .jobj fields => ¬ fields.isEmpty

/-- Test `isinstance(v, dict)`. -/
def JVal.isDict : JVal → Bool
  | .jobj _ => true
  | _ => false

/-- Lookup `d.get(k)` on the fields of a dict, as Python returns it: `None` when the
key is absent. -/
def jget (fields : List (String × JVal)) (k : String) : JVal :=
  (dictGet fields k).getD .null

/-! ## Order-parameter builders (`TradingBot.place_*_order`,
`BinanceFuturesREST.get_order`)

Each builder is the keyword-argument dict a `place_*_order` method passes
to `place_order(**params)` — the wire parameter set before `_request`
attaches `timestamp` and `signature`.  Keyword order follows the source
(CPython `**kwargs` dicts preserve it). -/

/-- Wire parameters with unrendered values. -/
abbrev JParams := List (String × JVal)

/-- The parameter dict built by `TradingBot.place_market_order`. -/
def marketParams (symbol side : String) (quantity : ℚ) : JParams :=
  [("symbol", .jstr (pyUpper symbol)), ("side", .jstr (pyUpper side)),
   ("type", .jstr "MARKET"), ("quantity", .jnum quantity)]

/-- The parameter dict built by `TradingBot.place_limit_order`. -/
def limitParams (symbol side : String) (quantity price : ℚ) (tif : String) : JParams :=
  [("symbol", .jstr (pyUpper symbol)), ("side", .jstr (pyUpper side)),
   ("type", .jstr "LIMIT"), ("quantity", .jnum quantity),
   ("price", .jnum price), ("timeInForce", .jstr tif)]

/-- The parameter dict built by `TradingBot.place_stop_order`. -/
def stopParams (symbol side : String) (quantity stop_price limit_price : ℚ)
    (tif : String) : JParams :=
  [("symbol", .jstr (pyUpper symbol)), ("side", .jstr (pyUpper side)),
   ("type", .jstr "STOP"), ("quantity", .jnum quantity),
   ("stopPrice", .jnum stop_price), ("price", .jnum limit_price),
   ("timeInForce", .jstr tif)]

/-- The parameter dict built by `BinanceFuturesREST.get_order`
(the source writes symbol.upper() for the symbol and passes orderId through). -/
def getOrderParams (symbol : String) (orderId : JVal) : JParams :=
  [("symbol", .jstr (pyUpper symbol)), ("orderId", orderId)]

/-! ## Credential resolution

`load_dotenv()` is called with its defaults (`override=False`): a variable
already present in the process environment keeps its pre-existing value,
and only variables absent from it are populated from the `.env` file.
`main` then runs `args.api_key or os.getenv("BINANCE_API_KEY")` (same for
the secret). -/

/-- The credential sources visible to one process run: the pre-existing
process environment and the `.env` file, per variable. -/
structure Env where
  envKey : Option String
  envSecret : Option String
  fileKey : Option String
  fileSecret : Option String
  deriving Repr, DecidableEq

/-- The process environment for one variable after `load_dotenv()`
(default `override=False`): the pre-existing value wins; the file value
fills in only when the variable was unset. -/
def envAfterDotenv (preexisting fileVal : Option String) : Option String :=
  match preexisting with
  | some v => some v
  | none => fileVal

/-- Python `a or b` on optional strings (`None` and `""` are falsy). -/
def pyOrStr (a b : Option String) : Option String :=
  match a with
  | some s => if s = "" then b else some s
  | none => b

/-- Resolution `args.api_key or os.getenv("BINANCE_API_KEY")` after `load_dotenv()`. -/
def resolvedApiKey (cli : Option String) (env : Env) : Option String :=
  pyOrStr cli (envAfterDotenv env.envKey env.fileKey)

/-- Resolution `args.api_secret or os.getenv("BINANCE_API_SECRET")` after
`load_dotenv()`. -/
def resolvedApiSecret (cli : Option String) (env : Env) : Option String :=
  pyOrStr cli (envAfterDotenv env.envSecret env.fileSecret)

/-- Truthiness of an optional string (`not api_key` in `main`). -/
def strOptTruthy : Option String → Bool
  | none => false
  | some s => s ≠ ""

/-! ## The `main` workflow -/

/-- The parsed CLI arguments.  `argparse` guarantees `side ∈ {BUY, SELL}`,
`type ∈ {MARKET, LIMIT, STOP}`, `time_in_force ∈ {GTC, IOC, FOK}` (choices)
and that `symbol`, `side`, `type`, `quantity` are present; `price` and
`stop_price` stay `None` when the flags are omitted. -/
structure Args where
  api_key : Option String
  api_secret : Option String
  base_url : String
  symbol : String
  side : String
  type : String
  quantity : ℚ
  price : Option ℚ
  stop_price : Option ℚ
  time_in_force : String
  deriving Repr, DecidableEq

/-- Python falsiness of an optional float (`not args.price`): `None` and
`0.0` are falsy. -/
def optRatFalsy : Option ℚ → Bool
  | none => true
  | some q => q == 0

/-- The observable trace of one `main` run: the parameter sets passed to
`place_order` and (inside `get_order`) to `_request`, what was printed,
and the `logger.error` messages. -/
structure RunTrace where
  placeCalled : List JParams := []
  getCalled : List JParams := []
  printedResult : Option JVal := none
  printedStatus : Option JVal := none
  errorLogs : List String := []
  deriving Repr

/-- The validation / dispatch chain of `main` (`if args.type == "MARKET"
... elif ... else`): either an error message logged before any network
call, or the parameter set handed to `place_order`. -/
def buildOrderParams (args : Args) : Except String JParams :=
  if args.type = "MARKET" then
    .ok (marketParams args.symbol args.side args.quantity)
  else if args.type = "LIMIT" then
    if optRatFalsy args.price then .error "LIMIT order requires --price"
    else .ok (limitParams args.symbol args.side args.quantity
        (args.price.getD 0) args.time_in_force)
  else if args.type = "STOP" then
    if optRatFalsy args.stop_price || optRatFalsy args.price then
      .error "STOP order requires --stop-price and --price"
    else .ok (stopParams args.symbol args.side args.quantity
        (args.stop_price.getD 0) (args.price.getD 0) args.time_in_force)
  else .error ("Unsupported order type: " ++ args.type)

/-- The transport oracle for one HTTP call: either the parsed JSON body of
a successful (2xx) response, or the exception text of a failed call
(non-2xx status via `raise_for_status`, network failure, or an unparsable
body). -/
abbrev HttpResp := Except String JVal

/-- The body of the `try` block of `main` after a successful placement response,
starting from the `print(result)`.  Any exception in it — a failing
`get_order` or `status.get` on a non-dict — falls through to the one
`except Exception` handler, which logs `"Order failed: ..."`. -/
def afterPlace (args : Args) (ps : JParams) (result : JVal) (getResp : HttpResp) :
    RunTrace :=
  let base : RunTrace := { placeCalled := [ps], printedResult := some result }
  match result with
  | .jobj fields =>
      if (jget fields "orderId").truthy then
        let gps := getOrderParams args.symbol (jget fields "orderId")
        match getResp with
        | .error e =>
            { base with
              getCalled := [gps]
              errorLogs := ["Order failed: " ++ e] }
        | .ok status =>
            match status with
            | .jobj sfields =>
                { base with
                  getCalled := [gps]
                  printedStatus := some (jget sfields "status") }
            | _ =>
                { base with
                  getCalled := [gps]
                  errorLogs := ["Order failed: AttributeError"] }
      else base
  | _ => base

/-- One run of `main`, with the two HTTP calls replaced by oracles.
`placeResp` is consulted only if the run reaches `place_order`, `getResp`
only if it reaches `get_order`. -/
def mainRun (env : Env) (args : Args) (placeResp getResp : HttpResp) : RunTrace :=
  let api_key := resolvedApiKey args.api_key env
  let api_secret := resolvedApiSecret args.api_secret env
  if !(strOptTruthy api_key) || !(strOptTruthy api_secret) then
    { errorLogs := ["API key and secret must be provided (CLI or .env)."] }
  else
    match buildOrderParams args with
    | .error msg => { errorLogs := [msg] }
    | .ok ps =>
        match placeResp with
        | .error e => { placeCalled := [ps], errorLogs := ["Order failed: " ++ e] }
        | .ok result => afterPlace args ps result getResp

/-! ## Concrete fixtures for closed runs -/

/-- A credential environment populated from all sources, with distinct
values per source. -/
def envBoth : Env :=
  ⟨some "ENVKEY", some "ENVSECRET", some "FILEKEY", some "FILESECRET"⟩

/-- Concrete MARKET-order arguments (scenario A: MARKET BUY 0.01 BTCUSDT). -/
def argsMarket : Args :=
  ⟨some "testkey", some "testsecret", "https://testnet.binancefuture.com",
   "BTCUSDT", "BUY", "MARKET", 1 / 100, none, none, "GTC"⟩

/-- The MARKET arguments with a negative quantity. -/
def argsMarketNegQty : Args :=
  ⟨some "testkey", some "testsecret", "https://testnet.binancefuture.com",
   "BTCUSDT", "BUY", "MARKET", -1, none, none, "GTC"⟩

/-- LIMIT-order arguments with the price flag omitted. -/
def argsLimitNoPrice : Args :=
  ⟨some "testkey", some "testsecret", "https://testnet.binancefuture.com",
   "BTCUSDT", "BUY", "LIMIT", 1 / 100, none, none, "GTC"⟩

/-- STOP-order arguments with the stop-price flag omitted. -/
def argsStopNoStop : Args :=
  ⟨some "testkey", some "testsecret", "https://testnet.binancefuture.com",
   "BTCUSDT", "SELL", "STOP", 1 / 100, some 305, none, "GTC"⟩

/-! ## Dictionary lemmas -/

theorem dictInsert_of_not_mem {l : List (String × α)} {k : String} (v : α)
    (h : k ∉ dictKeys l) : dictInsert l k v = l ++ [(k, v)] := by
  induction l with
  | nil => rfl
  | cons kv rest ih =>
      simp only [dictKeys, List.map_cons, List.mem_cons] at h
      push_neg at h
      simp only [dictInsert, if_neg (Ne.symm h.1), List.cons_append,
        ih (by simpa [dictKeys] using h.2)]

theorem dictGet_append_right {l l' : List (String × α)} {k : String}
    (h : k ∉ dictKeys l) : dictGet (l ++ l') k = dictGet l' k := by
  induction l with
  | nil => rfl
  | cons kv rest ih =>
      simp only [dictKeys, List.map_cons, List.mem_cons] at h
      push_neg at h
      simp only [List.cons_append, dictGet, if_neg (Ne.symm h.1)]
      exact ih (by simpa [dictKeys] using h.2)

theorem dictKeys_append (l l' : List (String × α)) :
    dictKeys (l ++ l') = dictKeys l ++ dictKeys l' := by
  simp [dictKeys]

/-! ## ASCII case lemmas -/

theorem toNat_ofNat_of_lt {n : Nat} (h : n < 55296) : (Char.ofNat n).toNat = n := by
  have hv : n.isValidChar := Or.inl h
  simp only [Char.ofNat, hv, dif_pos, Char.ofNatAux, Char.toNat]
  rfl

theorem pyUpperChar_pyLowerChar (c : Char) :
    pyUpperChar (pyLowerChar c) = pyUpperChar c := by
  unfold pyLowerChar
  by_cases h : 65 ≤ c.toNat ∧ c.toNat ≤ 90
  · rw [if_pos h]
    have h32 : (Char.ofNat (c.toNat + 32)).toNat = c.toNat + 32 :=
      toNat_ofNat_of_lt (by omega)
    unfold pyUpperChar
    rw [h32, if_pos (by omega), if_neg (by omega)]
    have he : c.toNat + 32 - 32 = c.toNat := by omega
    rw [he, Char.ofNat_toNat]
  · rw [if_neg h]

theorem pyUpperChar_pyUpperChar (c : Char) :
    pyUpperChar (pyUpperChar c) = pyUpperChar c := by
  by_cases h : 97 ≤ c.toNat ∧ c.toNat ≤ 122
  · have h1 : pyUpperChar c = Char.ofNat (c.toNat - 32) := by
      rw [pyUpperChar, if_pos h]
    have h2 : (Char.ofNat (c.toNat - 32)).toNat = c.toNat - 32 :=
      toNat_ofNat_of_lt (by omega)
    rw [h1]
    rw [pyUpperChar, h2, if_neg (by omega)]
  · have h1 : pyUpperChar c = c := by rw [pyUpperChar, if_neg h]
    rw [h1, h1]

theorem pyUpper_pyLower (s : String) : pyUpper (pyLower s) = pyUpper s := by
  simp [pyUpper, pyLower, List.map_map, Function.comp_def, pyUpperChar_pyLowerChar]

theorem pyUpper_pyUpper (s : String) : pyUpper (pyUpper s) = pyUpper s := by
  simp [pyUpper, List.map_map, Function.comp_def, pyUpperChar_pyUpperChar]

/-! ## Digest-shape lemmas -/

theorem wordBytes_lt {b : Nat} {w : Nat} (h : b ∈ wordBytes w) : b < 256 := by
  simp only [wordBytes, List.mem_cons, List.not_mem_nil, or_false] at h
  rcases h with h | h | h | h <;> subst h <;> exact Nat.mod_lt _ (by norm_num)

theorem sha256_mem_lt {b : Nat} {msg : List Nat} (h : b ∈ sha256 msg) : b < 256 := by
  simp only [sha256, stateBytes, List.mem_append] at h
  rcases h with ((((((h | h) | h) | h) | h) | h) | h) | h <;> exact wordBytes_lt h

theorem sha256_length (msg : List Nat) : (sha256 msg).length = 32 := by
  simp [sha256, stateBytes, wordBytes]

theorem hmacSha256_mem_lt {b : Nat} {key msg : List Nat} (h : b ∈ hmacSha256 key msg) :
    b < 256 :=
  sha256_mem_lt (by simpa [hmacSha256] using h)

theorem hmacSha256_length (key msg : List Nat) : (hmacSha256 key msg).length = 32 :=
  sha256_length _

theorem hexDigit_spec {n : Nat} (h : n < 16) :
    (hexDigit n).isDigit = true ∨ (97 ≤ (hexDigit n).toNat ∧ (hexDigit n).toNat ≤ 102) := by
  interval_cases n <;> simp [hexDigit]

theorem bytesToHex_length (l : List Nat) : (bytesToHex l).length = 2 * l.length := by
  induction l with
  | nil => rfl
  | cons b rest ih =>
      simp only [bytesToHex, String.length, List.foldr_cons] at ih ⊢
      simp [ih]
      omega

theorem mem_bytesToHex {c : Char} {l : List Nat} (hc : c ∈ (bytesToHex l).data) :
    ∃ b ∈ l, c = hexDigit (b / 16) ∨ c = hexDigit (b % 16) := by
  induction l with
  | nil => simp [bytesToHex] at hc
  | cons b rest ih =>
      simp only [bytesToHex, List.foldr_cons, List.mem_cons] at hc
      rcases hc with hc | hc | hc
      · exact ⟨b, List.mem_cons_self .., Or.inl hc⟩
      · exact ⟨b, List.mem_cons_self .., Or.inr hc⟩
      · obtain ⟨b', hb', hcb⟩ := ih hc
        exact ⟨b', List.mem_cons_of_mem _ hb', hcb⟩

theorem sign_chars_lower_hex {secret : String} {params : Params} {c : Char}
    (hc : c ∈ (sign secret params).data) :
    c.isDigit = true ∨ (97 ≤ c.toNat ∧ c.toNat ≤ 102) := by
  obtain ⟨b, hb, hcb⟩ := mem_bytesToHex hc
  have hblt : b < 256 := hmacSha256_mem_lt hb
  rcases hcb with rfl | rfl
  · exact hexDigit_spec (by omega)
  · exact hexDigit_spec (Nat.mod_lt _ (by norm_num))

theorem sign_length (secret : String) (params : Params) :
    (sign secret params).length = 64 := by
  simp [sign, bytesToHex_length, hmacSha256_length]

/-! ## Structure of `prepareSigned` -/

theorem prepareSigned_eq_append (secret : String) (params : Params) (now : Nat)
    (hts : "timestamp" ∉ dictKeys params) (hsig : "signature" ∉ dictKeys params) :
    prepareSigned secret params now =
      params ++ [("timestamp", toString now),
        ("signature", sign secret (params ++ [("timestamp", toString now)]))] := by
  unfold prepareSigned
  rw [dictInsert_of_not_mem _ hts]
  rw [dictInsert_of_not_mem]
  · simp
  · simp [dictKeys_append, dictKeys]
    simpa [dictKeys] using hsig

/-! ## Workflow-shape lemmas -/

theorem afterPlace_placeCalled (args : Args) (ps : JParams) (result : JVal)
    (getResp : HttpResp) : (afterPlace args ps result getResp).placeCalled = [ps] := by
  unfold afterPlace
  cases result <;> simp
  split
  · cases getResp with
    | error e => simp
    | ok status => cases status <;> simp
  · simp

theorem afterPlace_printedResult (args : Args) (ps : JParams) (result : JVal)
    (getResp : HttpResp) :
    (afterPlace args ps result getResp).printedResult = some result := by
  unfold afterPlace
  cases result <;> simp
  split
  · cases getResp with
    | error e => simp
    | ok status => cases status <;> simp
  · simp

theorem afterPlace_getCalled_of_truthy (args : Args) (ps : JParams)
    (fields : List (String × JVal)) (getResp : HttpResp)
    (h : (jget fields "orderId").truthy = true) :
    (afterPlace args ps (.jobj fields) getResp).getCalled =
      [getOrderParams args.symbol (jget fields "orderId")] := by
  unfold afterPlace
  simp only [h, if_true]
  cases getResp with
  | error e => simp
  | ok status => cases status <;> simp

theorem afterPlace_getCalled_eq_nil_iff (args : Args) (ps : JParams) (result : JVal)
    (getResp : HttpResp) :
    (afterPlace args ps result getResp).getCalled = [] ↔
      ∀ fields, result = .jobj fields → (jget fields "orderId").truthy = false := by
  unfold afterPlace
  cases result <;> simp
  rename_i fields
  cases htruthy : (jget fields "orderId").truthy with
  | true =>
      simp only [htruthy]
      simp only [if_true]
      constructor
      · intro hnil
        exfalso
        cases getResp with
        | error e => simp at hnil
        | ok status => cases status <;> simp at hnil
      · intro hfalse
        cases hfalse
  | false =>
      simp [htruthy]

theorem afterPlace_errorLogs_of_get_error (args : Args) (ps : JParams)
    (fields : List (String × JVal)) (e : String)
    (h : (jget fields "orderId").truthy = true) :
    (afterPlace args ps (.jobj fields) (.error e)).errorLogs = ["Order failed: " ++ e] := by
  unfold afterPlace
  simp [h]

theorem mainRun_of_ok (env : Env) (args : Args) (placeResp getResp : HttpResp)
    (ps : JParams)
    (hk : strOptTruthy (resolvedApiKey args.api_key env) = true)
    (hs : strOptTruthy (resolvedApiSecret args.api_secret env) = true)
    (hbuild : buildOrderParams args = .ok ps) :
    mainRun env args placeResp getResp =
      match placeResp with
      | .error e => { placeCalled := [ps], errorLogs := ["Order failed: " ++ e] }
      | .ok result => afterPlace args ps result getResp := by
  unfold mainRun
  simp [hk, hs, hbuild]

theorem mainRun_of_validation_error (env : Env) (args : Args)
    (placeResp getResp : HttpResp) (msg : String)
    (hk : strOptTruthy (resolvedApiKey args.api_key env) = true)
    (hs : strOptTruthy (resolvedApiSecret args.api_secret env) = true)
    (hbuild : buildOrderParams args = .error msg) :
    mainRun env args placeResp getResp = { errorLogs := [msg] } := by
  unfold mainRun
  simp [hk, hs, hbuild]

theorem mainRun_placeCalled (env : Env) (args : Args) (placeResp getResp : HttpResp)
    (ps : JParams)
    (hk : strOptTruthy (resolvedApiKey args.api_key env) = true)
    (hs : strOptTruthy (resolvedApiSecret args.api_secret env) = true)
    (hbuild : buildOrderParams args = .ok ps) :
    (mainRun env args placeResp getResp).placeCalled = [ps] := by
  rw [mainRun_of_ok env args placeResp getResp ps hk hs hbuild]
  cases placeResp with
  | error e => rfl
  | ok result => exact afterPlace_placeCalled args ps result getResp

/-! ## Claim C1 -/

/-- C1: for every parameter mapping submitted as a signed request (any
mapping not already carrying a `timestamp` or `signature` key, as holds for
everything the program submits), the attached signature equals the
lowercase hexadecimal HMAC-SHA256, keyed by the UTF-8 bytes of the API
secret, of the URL-percent-encoded query string of the parameters in
insertion order, where the timestamp has been inserted (appended) before
signing and the `signature` field itself is never part of the signed
string.  The digest is 64 characters, each a digit or a lowercase `a`-`f`. -/
theorem C1_signed_request_signature (secret : String) (params : Params) (now : Nat)
    (hts : "timestamp" ∉ dictKeys params) (hsig : "signature" ∉ dictKeys params) :
    prepareSigned secret params now =
      params ++ [("timestamp", toString now),
        ("signature", sign secret (params ++ [("timestamp", toString now)]))] ∧
    sign secret (params ++ [("timestamp", toString now)]) =
      bytesToHex (hmacSha256 (utf8 secret)
        (utf8 (urlencode (params ++ [("timestamp", toString now)])))) ∧
    dictGet (prepareSigned secret params now) "signature" =
      some (sign secret (params ++ [("timestamp", toString now)])) ∧
    "signature" ∉ dictKeys (params ++ [("timestamp", toString now)]) ∧
    (sign secret (params ++ [("timestamp", toString now)])).length = 64 ∧
    ∀ c ∈ (sign secret (params ++ [("timestamp", toString now)])).data,
      c.isDigit = true ∨ (97 ≤ c.toNat ∧ c.toNat ≤ 102) := by
  have happ := prepareSigned_eq_append secret params now hts hsig
  have hsig2 : "signature" ∉ dictKeys (params ++ [("timestamp", toString now)]) := by
    rw [dictKeys_append]
    simp only [List.mem_append, not_or]
    exact ⟨hsig, by simp [dictKeys]⟩
  refine ⟨happ, rfl, ?_, hsig2, sign_length secret _,
    fun c hc => sign_chars_lower_hex hc⟩
  rw [happ]
  have : params ++ [("timestamp", toString now),
      ("signature", sign secret (params ++ [("timestamp", toString now)]))] =
      params ++ ([("timestamp", toString now)] ++
        [("signature", sign secret (params ++ [("timestamp", toString now)]))]) := by
    simp
  rw [this, dictGet_append_right hsig]
  simp [dictGet]

/-- Witness for C1 at a concrete mapping, secret, and clock value. -/
theorem C1_signed_request_signature_witness :
    "timestamp" ∉ dictKeys [("symbol", "BTCUSDT"), ("side", "BUY")] ∧
    "signature" ∉ dictKeys [("symbol", "BTCUSDT"), ("side", "BUY")] ∧
    (prepareSigned "mysecret" [("symbol", "BTCUSDT"), ("side", "BUY")] 1700000000000 =
      [("symbol", "BTCUSDT"), ("side", "BUY")] ++ [("timestamp", toString 1700000000000),
        ("signature", sign "mysecret" ([("symbol", "BTCUSDT"), ("side", "BUY")] ++
          [("timestamp", toString 1700000000000)]))] ∧
     sign "mysecret" ([("symbol", "BTCUSDT"), ("side", "BUY")] ++
        [("timestamp", toString 1700000000000)]) =
      bytesToHex (hmacSha256 (utf8 "mysecret")
        (utf8 (urlencode ([("symbol", "BTCUSDT"), ("side", "BUY")] ++
          [("timestamp", toString 1700000000000)])))) ∧
     dictGet (prepareSigned "mysecret" [("symbol", "BTCUSDT"), ("side", "BUY")]
        1700000000000) "signature" =
      some (sign "mysecret" ([("symbol", "BTCUSDT"), ("side", "BUY")] ++
        [("timestamp", toString 1700000000000)])) ∧
     "signature" ∉ dictKeys ([("symbol", "BTCUSDT"), ("side", "BUY")] ++
        [("timestamp", toString 1700000000000)]) ∧
     (sign "mysecret" ([("symbol", "BTCUSDT"), ("side", "BUY")] ++
        [("timestamp", toString 1700000000000)])).length = 64 ∧
     ∀ c ∈ (sign "mysecret" ([("symbol", "BTCUSDT"), ("side", "BUY")] ++
        [("timestamp", toString 1700000000000)])).data,
       c.isDigit = true ∨ (97 ≤ c.toNat ∧ c.toNat ≤ 102)) :=
  ⟨by decide, by decide,
   C1_signed_request_signature "mysecret" [("symbol", "BTCUSDT"), ("side", "BUY")]
     1700000000000 (by decide) (by decide)⟩

/-! ## Claim C2 -/

/-- C2: the sign operation is deterministic: two invocations with identical
parameters, identical secret, and identical timestamp attach identical
signatures, and re-signing a recorded `(params, signature)` pair with the
same inputs recomputes the same signature. -/
theorem C2_sign_deterministic (p1 p2 : Params) (s1 s2 : String) (t1 t2 : Nat)
    (hp : p1 = p2) (hs : s1 = s2) (ht : t1 = t2) :
    dictGet (prepareSigned s1 p1 t1) "signature" =
      dictGet (prepareSigned s2 p2 t2) "signature" ∧
    ∀ recorded : String,
      recorded = sign s1 (dictInsert p1 "timestamp" (toString t1)) →
      sign s2 (dictInsert p2 "timestamp" (toString t2)) = recorded := by
  subst hp
  subst hs
  subst ht
  exact ⟨rfl, fun recorded h => h.symm⟩

/-- Witness for C2 at a concrete mapping, secret, and clock value. -/
theorem C2_sign_deterministic_witness :
    ([("symbol", "BTCUSDT")] : Params) = [("symbol", "BTCUSDT")] ∧
    "mysecret" = "mysecret" ∧
    (1700000000000 : Nat) = 1700000000000 ∧
    (dictGet (prepareSigned "mysecret" [("symbol", "BTCUSDT")] 1700000000000)
        "signature" =
      dictGet (prepareSigned "mysecret" [("symbol", "BTCUSDT")] 1700000000000)
        "signature" ∧
     ∀ recorded : String,
       recorded = sign "mysecret"
         (dictInsert [("symbol", "BTCUSDT")] "timestamp" (toString 1700000000000)) →
       sign "mysecret"
         (dictInsert [("symbol", "BTCUSDT")] "timestamp" (toString 1700000000000)) =
         recorded) :=
  ⟨rfl, rfl, rfl,
   C2_sign_deterministic [("symbol", "BTCUSDT")] [("symbol", "BTCUSDT")]
     "mysecret" "mysecret" 1700000000000 1700000000000 rfl rfl rfl⟩

/-! ## Claim C8 -/

/-- C8 counterexample: the claim that the mapping of the caller is left
unchanged is false.  `_request` runs `params = params or {}` and then
assigns into that dict: for a nonempty mapping this is the very object the
caller supplied, so after the call the mapping of the caller is no longer
equal to what it passed. -/
theorem C8_counterexample :
    requestCallerParams "mysecret" (some [("symbol", "BTCUSDT")]) 1700000000000 ≠
      [("symbol", "BTCUSDT")] := by
  intro h
  have hl := congrArg List.length h
  simp [requestCallerParams, prepareSigned, dictInsert] at hl

/-- C8 amended: `_request` inserts `timestamp` and `signature` into the very
mapping the caller supplied — no copy is made — so after a signed request
with a nonempty mapping the caller observes both inserted fields; only when
the caller passes `None` or an empty (falsy) mapping does `params or {}`
create a fresh dict and leave the caller unaffected. -/
theorem C8_amended_caller_mapping_mutated (secret : String) (l : Params) (now : Nat)
    (hne : l ≠ []) (hts : "timestamp" ∉ dictKeys l) (hsig : "signature" ∉ dictKeys l) :
    requestCallerParams secret (some l) now =
      l ++ [("timestamp", toString now),
        ("signature", sign secret (l ++ [("timestamp", toString now)]))] ∧
    requestCallerParams secret (some l) now ≠ l ∧
    requestCallerParams secret none now = [] ∧
    requestCallerParams secret (some []) now = [] := by
  obtain ⟨x, xs, rfl⟩ : ∃ x xs, l = x :: xs := by
    cases l with
    | nil => exact absurd rfl hne
    | cons x xs => exact ⟨x, xs, rfl⟩
  have hreq : requestCallerParams secret (some (x :: xs)) now =
      prepareSigned secret (x :: xs) now := rfl
  refine ⟨?_, ?_, rfl, rfl⟩
  · rw [hreq, prepareSigned_eq_append secret _ now hts hsig]
  · rw [hreq, prepareSigned_eq_append secret _ now hts hsig]
    intro h
    have hl := congrArg List.length h
    simp at hl

/-- Witness for the amended C8 at a concrete nonempty mapping. -/
theorem C8_amended_caller_mapping_mutated_witness :
    ([("symbol", "BTCUSDT")] : Params) ≠ [] ∧
    "timestamp" ∉ dictKeys [("symbol", "BTCUSDT")] ∧
    "signature" ∉ dictKeys [("symbol", "BTCUSDT")] ∧
    (requestCallerParams "mysecret" (some [("symbol", "BTCUSDT")]) 1700000000000 =
      [("symbol", "BTCUSDT")] ++ [("timestamp", toString 1700000000000),
        ("signature", sign "mysecret" ([("symbol", "BTCUSDT")] ++
          [("timestamp", toString 1700000000000)]))] ∧
     requestCallerParams "mysecret" (some [("symbol", "BTCUSDT")]) 1700000000000 ≠
      [("symbol", "BTCUSDT")] ∧
     requestCallerParams "mysecret" none 1700000000000 = [] ∧
     requestCallerParams "mysecret" (some []) 1700000000000 = []) :=
  ⟨by decide, by decide, by decide,
   C8_amended_caller_mapping_mutated "mysecret" [("symbol", "BTCUSDT")] 1700000000000
     (by decide) (by decide) (by decide)⟩

/-! ## Claim C9 -/

/-- C9 (against the stated priority CLI over file over process
environment): evaluating the credential resolution at an input where the
variable is set both in the pre-existing process environment and in the
`.env` file.  Because `load_dotenv()` is called with its default
(`override=False`), the pre-existing process-environment value wins over
the `.env` file value — contradicting both the claim and the source
comment `highest priority: CLI > .env > OS env`.  The CLI override does
win over everything, and the file value is used only when the process
environment lacks the variable. -/
theorem C9_env_value_beats_file_value :
    resolvedApiKey none ⟨some "ENVKEY", none, some "FILEKEY", none⟩ = some "ENVKEY" ∧
    resolvedApiKey none ⟨some "ENVKEY", none, some "FILEKEY", none⟩ ≠ some "FILEKEY" ∧
    resolvedApiKey (some "CLIKEY") ⟨some "ENVKEY", none, some "FILEKEY", none⟩ =
      some "CLIKEY" ∧
    resolvedApiKey none ⟨none, none, some "FILEKEY", none⟩ = some "FILEKEY" := by
  refine ⟨rfl, ?_, rfl, rfl⟩
  decide

/-! ## Claim C10 -/

/-- C10: the symbol and side values actually sent on the wire are
uppercased by every order builder, and `get_order` uppercases the symbol,
so lowercase caller input yields the same request as uppercase input. -/
theorem C10_wire_values_uppercased (symbol side : String) (q p sp : ℚ)
    (tif : String) (oid : JVal) :
    dictGet (marketParams symbol side q) "symbol" = some (.jstr (pyUpper symbol)) ∧
    dictGet (marketParams symbol side q) "side" = some (.jstr (pyUpper side)) ∧
    marketParams symbol side q = marketParams (pyUpper symbol) (pyUpper side) q ∧
    marketParams (pyLower symbol) (pyLower side) q =
      marketParams (pyUpper symbol) (pyUpper side) q ∧
    limitParams (pyLower symbol) (pyLower side) q p tif =
      limitParams symbol side q p tif ∧
    stopParams (pyLower symbol) (pyLower side) q sp p tif =
      stopParams symbol side q sp p tif ∧
    getOrderParams (pyLower symbol) oid = getOrderParams symbol oid := by
  refine ⟨?_, ?_, ?_, ?_, ?_, ?_, ?_⟩ <;>
    simp [marketParams, limitParams, stopParams, getOrderParams, dictGet,
      pyUpper_pyLower, pyUpper_pyUpper]

/-! ## Claim C3 -/

/-- C3: for every validated order the workflow maps the order kind to
exactly the kind-specific wire parameter set before signing: a MARKET
order sends only `symbol`, `side`, `type=MARKET`, `quantity` (no `price`,
`timeInForce`, or `stopPrice` field present); a LIMIT order additionally
sends `price` and `timeInForce`; a STOP order additionally sends
`stopPrice`, `price` (the limit execution price once triggered), and
`timeInForce`. -/
theorem C3_kind_specific_wire_params (env : Env) (args : Args)
    (placeResp getResp : HttpResp)
    (hk : strOptTruthy (resolvedApiKey args.api_key env) = true)
    (hs : strOptTruthy (resolvedApiSecret args.api_secret env) = true) :
    (args.type = "MARKET" →
      (mainRun env args placeResp getResp).placeCalled =
        [[("symbol", .jstr (pyUpper args.symbol)), ("side", .jstr (pyUpper args.side)),
          ("type", .jstr "MARKET"), ("quantity", .jnum args.quantity)]] ∧
      ∀ ps ∈ (mainRun env args placeResp getResp).placeCalled,
        "price" ∉ dictKeys ps ∧ "timeInForce" ∉ dictKeys ps ∧
        "stopPrice" ∉ dictKeys ps) ∧
    (args.type = "LIMIT" → optRatFalsy args.price = false →
      (mainRun env args placeResp getResp).placeCalled =
        [[("symbol", .jstr (pyUpper args.symbol)), ("side", .jstr (pyUpper args.side)),
          ("type", .jstr "LIMIT"), ("quantity", .jnum args.quantity),
          ("price", .jnum (args.price.getD 0)),
          ("timeInForce", .jstr args.time_in_force)]]) ∧
    (args.type = "STOP" → optRatFalsy args.stop_price = false →
      optRatFalsy args.price = false →
      (mainRun env args placeResp getResp).placeCalled =
        [[("symbol", .jstr (pyUpper args.symbol)), ("side", .jstr (pyUpper args.side)),
          ("type", .jstr "STOP"), ("quantity", .jnum args.quantity),
          ("stopPrice", .jnum (args.stop_price.getD 0)),
          ("price", .jnum (args.price.getD 0)),
          ("timeInForce", .jstr args.time_in_force)]]) := by
  refine ⟨fun htype => ?_, fun htype hp => ?_, fun htype hsp hp => ?_⟩
  · have hbuild : buildOrderParams args =
        .ok (marketParams args.symbol args.side args.quantity) := by
      simp [buildOrderParams, htype]
    refine ⟨?_, ?_⟩
    · rw [mainRun_placeCalled env args placeResp getResp _ hk hs hbuild]
      exact rfl
    · intro ps hps
      rw [mainRun_placeCalled env args placeResp getResp _ hk hs hbuild] at hps
      simp only [List.mem_singleton] at hps
      subst hps
      refine ⟨?_, ?_, ?_⟩ <;> simp [marketParams, dictKeys]
  · have hbuild : buildOrderParams args =
        .ok (limitParams args.symbol args.side args.quantity (args.price.getD 0)
          args.time_in_force) := by
      simp [buildOrderParams, htype, hp]
    rw [mainRun_placeCalled env args placeResp getResp _ hk hs hbuild]
    exact rfl
  · have hbuild : buildOrderParams args =
        .ok (stopParams args.symbol args.side args.quantity (args.stop_price.getD 0)
          (args.price.getD 0) args.time_in_force) := by
      simp [buildOrderParams, htype, hsp, hp]
    rw [mainRun_placeCalled env args placeResp getResp _ hk hs hbuild]
    exact rfl

/-- Witness for C3: a concrete MARKET BUY 0.01 BTCUSDT run (scenario A). -/
theorem C3_kind_specific_wire_params_witness :
    strOptTruthy (resolvedApiKey argsMarket.api_key envBoth) = true ∧
    strOptTruthy (resolvedApiSecret argsMarket.api_secret envBoth) = true ∧
    ((argsMarket.type = "MARKET" →
      (mainRun envBoth argsMarket (.ok (.jobj [("orderId", .jnum 12345)]))
          (.ok (.jobj [("status", .jstr "NEW")]))).placeCalled =
        [[("symbol", .jstr (pyUpper argsMarket.symbol)),
          ("side", .jstr (pyUpper argsMarket.side)),
          ("type", .jstr "MARKET"), ("quantity", .jnum argsMarket.quantity)]] ∧
      ∀ ps ∈ (mainRun envBoth argsMarket (.ok (.jobj [("orderId", .jnum 12345)]))
          (.ok (.jobj [("status", .jstr "NEW")]))).placeCalled,
        "price" ∉ dictKeys ps ∧ "timeInForce" ∉ dictKeys ps ∧
        "stopPrice" ∉ dictKeys ps) ∧
    (argsMarket.type = "LIMIT" → optRatFalsy argsMarket.price = false →
      (mainRun envBoth argsMarket (.ok (.jobj [("orderId", .jnum 12345)]))
          (.ok (.jobj [("status", .jstr "NEW")]))).placeCalled =
        [[("symbol", .jstr (pyUpper argsMarket.symbol)),
          ("side", .jstr (pyUpper argsMarket.side)),
          ("type", .jstr "LIMIT"), ("quantity", .jnum argsMarket.quantity),
          ("price", .jnum (argsMarket.price.getD 0)),
          ("timeInForce", .jstr argsMarket.time_in_force)]]) ∧
    (argsMarket.type = "STOP" → optRatFalsy argsMarket.stop_price = false →
      optRatFalsy argsMarket.price = false →
      (mainRun envBoth argsMarket (.ok (.jobj [("orderId", .jnum 12345)]))
          (.ok (.jobj [("status", .jstr "NEW")]))).placeCalled =
        [[("symbol", .jstr (pyUpper argsMarket.symbol)),
          ("side", .jstr (pyUpper argsMarket.side)),
          ("type", .jstr "STOP"), ("quantity", .jnum argsMarket.quantity),
          ("stopPrice", .jnum (argsMarket.stop_price.getD 0)),
          ("price", .jnum (argsMarket.price.getD 0)),
          ("timeInForce", .jstr argsMarket.time_in_force)]])) :=
  ⟨by decide, by decide,
   C3_kind_specific_wire_params envBoth argsMarket
     (.ok (.jobj [("orderId", .jnum 12345)])) (.ok (.jobj [("status", .jstr "NEW")]))
     (by decide) (by decide)⟩

/-! ## Claim C4 -/

/-- C4 counterexample: the guard on the confirmation call is Python
truthiness of `result.get("orderId")`, not non-nullness.  A placement
response `{"orderId": 0}` carries a non-null `orderId`, yet the workflow
makes no `getOrder` call, so the claimed iff (confirmation iff success and
non-null `orderId`) fails. -/
theorem C4_counterexample :
    jget [("orderId", JVal.jnum 0)] "orderId" ≠ JVal.null ∧
    (mainRun envBoth argsMarket (.ok (.jobj [("orderId", .jnum 0)]))
        (.ok (.jobj [("status", .jstr "NEW")]))).getCalled = [] ∧
    (mainRun envBoth argsMarket (.ok (.jobj [("orderId", .jnum 0)]))
        (.ok (.jobj [("status", .jstr "NEW")]))).errorLogs = [] := by
  refine ⟨?_, rfl, rfl⟩
  intro h
  exact JVal.noConfusion h

/-- C4 amended: the status-confirmation call is made if and only if
placement completed successfully and its response is an object whose
`orderId` value is truthy in the Python sense (present, non-null,
non-zero, non-empty).  A successful response lacking a truthy `orderId`
ends the workflow at `Placed` (the result is printed, no confirmation
call); a placement failure ends it in `Failed` with no confirmation call
attempted. -/
theorem C4_amended_confirmation_iff_truthy_orderId (env : Env) (args : Args)
    (placeResp getResp : HttpResp) (ps : JParams)
    (hk : strOptTruthy (resolvedApiKey args.api_key env) = true)
    (hs : strOptTruthy (resolvedApiSecret args.api_secret env) = true)
    (hbuild : buildOrderParams args = .ok ps) :
    ((mainRun env args placeResp getResp).getCalled ≠ [] ↔
      ∃ fields, placeResp = .ok (.jobj fields) ∧
        (jget fields "orderId").truthy = true) ∧
    (∀ fields, placeResp = .ok (.jobj fields) →
      (jget fields "orderId").truthy = true →
      (mainRun env args placeResp getResp).getCalled =
        [getOrderParams args.symbol (jget fields "orderId")]) ∧
    (∀ r, placeResp = .ok r →
      (mainRun env args placeResp getResp).printedResult = some r) ∧
    (∀ e, placeResp = .error e →
      (mainRun env args placeResp getResp).getCalled = [] ∧
      (mainRun env args placeResp getResp).printedResult = none ∧
      (mainRun env args placeResp getResp).errorLogs = ["Order failed: " ++ e]) := by
  rw [mainRun_of_ok env args placeResp getResp ps hk hs hbuild]
  cases placeResp with
  | error e =>
      refine ⟨?_, ?_, ?_, ?_⟩
      · simp
      · intro fields hf
        cases hf
      · intro r hr
        cases hr
      · intro e' he
        injection he with he
        subst he
        exact ⟨rfl, rfl, rfl⟩
  | ok result =>
      refine ⟨?_, ?_, ?_, ?_⟩
      · rw [Ne, afterPlace_getCalled_eq_nil_iff]
        push_neg
        constructor
        · rintro ⟨fields, hf, ht⟩
          subst hf
          exact ⟨fields, rfl, by simpa using ht⟩
        · rintro ⟨fields, hf, ht⟩
          injection hf with hf
          subst hf
          exact ⟨fields, rfl, by simp [ht]⟩
      · intro fields hf ht
        injection hf with hf
        subst hf
        exact afterPlace_getCalled_of_truthy args ps fields getResp ht
      · intro r hr
        injection hr with hr
        subst hr
        exact afterPlace_printedResult args ps result getResp
      · intro e he
        cases he

/-- Witness for the amended C4: a concrete run whose placement response
carries `orderId` 12345. -/
theorem C4_amended_confirmation_iff_truthy_orderId_witness :
    strOptTruthy (resolvedApiKey argsMarket.api_key envBoth) = true ∧
    strOptTruthy (resolvedApiSecret argsMarket.api_secret envBoth) = true ∧
    buildOrderParams argsMarket =
      .ok (marketParams argsMarket.symbol argsMarket.side argsMarket.quantity) ∧
    (((mainRun envBoth argsMarket (.ok (.jobj [("orderId", .jnum 12345)]))
        (.ok (.jobj [("status", .jstr "NEW")]))).getCalled ≠ [] ↔
      ∃ fields, (.ok (.jobj [("orderId", .jnum 12345)]) : HttpResp) =
          .ok (.jobj fields) ∧ (jget fields "orderId").truthy = true) ∧
    (∀ fields, (.ok (.jobj [("orderId", .jnum 12345)]) : HttpResp) =
        .ok (.jobj fields) →
      (jget fields "orderId").truthy = true →
      (mainRun envBoth argsMarket (.ok (.jobj [("orderId", .jnum 12345)]))
          (.ok (.jobj [("status", .jstr "NEW")]))).getCalled =
        [getOrderParams argsMarket.symbol (jget fields "orderId")]) ∧
    (∀ r, (.ok (.jobj [("orderId", .jnum 12345)]) : HttpResp) = .ok r →
      (mainRun envBoth argsMarket (.ok (.jobj [("orderId", .jnum 12345)]))
          (.ok (.jobj [("status", .jstr "NEW")]))).printedResult = some r) ∧
    (∀ e, (.ok (.jobj [("orderId", .jnum 12345)]) : HttpResp) = .error e →
      (mainRun envBoth argsMarket (.ok (.jobj [("orderId", .jnum 12345)]))
          (.ok (.jobj [("status", .jstr "NEW")]))).getCalled = [] ∧
      (mainRun envBoth argsMarket (.ok (.jobj [("orderId", .jnum 12345)]))
          (.ok (.jobj [("status", .jstr "NEW")]))).printedResult = none ∧
      (mainRun envBoth argsMarket (.ok (.jobj [("orderId", .jnum 12345)]))
          (.ok (.jobj [("status", .jstr "NEW")]))).errorLogs =
        ["Order failed: " ++ e])) :=
  ⟨by decide, by decide, rfl,
   C4_amended_confirmation_iff_truthy_orderId envBoth argsMarket
     (.ok (.jobj [("orderId", .jnum 12345)])) (.ok (.jobj [("status", .jstr "NEW")]))
     (marketParams argsMarket.symbol argsMarket.side argsMarket.quantity)
     (by decide) (by decide) rfl⟩

/-! ## Claim C5 -/

/-- C5: for every LIMIT order request missing `price`, and every STOP order
request missing `stopPrice` or missing `price`, the workflow fails with the
corresponding validation error and returns without performing any network
call — neither `placeOrder` nor `getOrder` is invoked. -/
theorem C5_missing_price_validation (env : Env) (args : Args)
    (placeResp getResp : HttpResp)
    (hk : strOptTruthy (resolvedApiKey args.api_key env) = true)
    (hs : strOptTruthy (resolvedApiSecret args.api_secret env) = true)
    (h : (args.type = "LIMIT" ∧ args.price = none) ∨
         (args.type = "STOP" ∧ (args.stop_price = none ∨ args.price = none))) :
    (mainRun env args placeResp getResp).placeCalled = [] ∧
    (mainRun env args placeResp getResp).getCalled = [] ∧
    (args.type = "LIMIT" →
      (mainRun env args placeResp getResp).errorLogs =
        ["LIMIT order requires --price"]) ∧
    (args.type = "STOP" →
      (mainRun env args placeResp getResp).errorLogs =
        ["STOP order requires --stop-price and --price"]) := by
  rcases h with ⟨htype, hprice⟩ | ⟨htype, hmiss⟩
  · have hbuild : buildOrderParams args = .error "LIMIT order requires --price" := by
      simp [buildOrderParams, htype, hprice, optRatFalsy]
    rw [mainRun_of_validation_error env args placeResp getResp _ hk hs hbuild]
    refine ⟨rfl, rfl, fun _ => rfl, fun hstop => ?_⟩
    exact absurd (htype.symm.trans hstop) (by decide)
  · have hbuild : buildOrderParams args =
        .error "STOP order requires --stop-price and --price" := by
      rcases hmiss with hsp | hp
      · simp [buildOrderParams, htype, hsp, optRatFalsy]
      · simp [buildOrderParams, htype, hp, optRatFalsy]
    rw [mainRun_of_validation_error env args placeResp getResp _ hk hs hbuild]
    refine ⟨rfl, rfl, fun hlimit => ?_, fun _ => rfl⟩
    exact absurd (htype.symm.trans hlimit) (by decide)

/-- Witness for C5: a concrete LIMIT run with the price flag omitted. -/
theorem C5_missing_price_validation_witness :
    strOptTruthy (resolvedApiKey argsLimitNoPrice.api_key envBoth) = true ∧
    strOptTruthy (resolvedApiSecret argsLimitNoPrice.api_secret envBoth) = true ∧
    ((argsLimitNoPrice.type = "LIMIT" ∧ argsLimitNoPrice.price = none) ∨
     (argsLimitNoPrice.type = "STOP" ∧
       (argsLimitNoPrice.stop_price = none ∨ argsLimitNoPrice.price = none))) ∧
    ((mainRun envBoth argsLimitNoPrice (.ok .null) (.ok .null)).placeCalled = [] ∧
     (mainRun envBoth argsLimitNoPrice (.ok .null) (.ok .null)).getCalled = [] ∧
     (argsLimitNoPrice.type = "LIMIT" →
       (mainRun envBoth argsLimitNoPrice (.ok .null) (.ok .null)).errorLogs =
         ["LIMIT order requires --price"]) ∧
     (argsLimitNoPrice.type = "STOP" →
       (mainRun envBoth argsLimitNoPrice (.ok .null) (.ok .null)).errorLogs =
         ["STOP order requires --stop-price and --price"])) :=
  ⟨by decide, by decide, Or.inl ⟨rfl, rfl⟩,
   C5_missing_price_validation envBoth argsLimitNoPrice (.ok .null) (.ok .null)
     (by decide) (by decide) (Or.inl ⟨rfl, rfl⟩)⟩

/-! ## Claim C6 -/

/-- C6 counterexample: a failing `get_order` after a successful placement is
not caught locally and reported as a secondary warning — it lands in the
same top-level `except Exception` handler as a placement failure, producing
the identical `Order failed: ...` error log, even though the placement
result was already printed. -/
theorem C6_counterexample :
    (mainRun envBoth argsMarket (.ok (.jobj [("orderId", .jnum 12345)]))
        (.error "HTTP 500")).errorLogs = ["Order failed: HTTP 500"] ∧
    (mainRun envBoth argsMarket (.error "HTTP 500")
        (.error "HTTP 500")).errorLogs = ["Order failed: HTTP 500"] ∧
    (mainRun envBoth argsMarket (.ok (.jobj [("orderId", .jnum 12345)]))
        (.error "HTTP 500")).printedResult =
      some (.jobj [("orderId", .jnum 12345)]) :=
  ⟨rfl, rfl, rfl⟩

/-- C6 amended: if placement succeeds but the follow-up `getOrder` status
call fails, the placement result has already been printed and the
placement itself is not undone, but the failure is not caught locally: it
falls through to the same top-level exception handler as a placement
failure and is logged as the run-level `Order failed: ...` error —
indistinguishable from the log a placement failure with the same cause
would produce — rather than being reported as a distinct secondary
warning. -/
theorem C6_amended_get_failure_shares_top_level_handler (env : Env) (args : Args)
    (ps : JParams) (fields : List (String × JVal)) (e : String)
    (hk : strOptTruthy (resolvedApiKey args.api_key env) = true)
    (hs : strOptTruthy (resolvedApiSecret args.api_secret env) = true)
    (hbuild : buildOrderParams args = .ok ps)
    (htruthy : (jget fields "orderId").truthy = true) :
    (mainRun env args (.ok (.jobj fields)) (.error e)).printedResult =
      some (.jobj fields) ∧
    (mainRun env args (.ok (.jobj fields)) (.error e)).placeCalled = [ps] ∧
    (mainRun env args (.ok (.jobj fields)) (.error e)).getCalled =
      [getOrderParams args.symbol (jget fields "orderId")] ∧
    (mainRun env args (.ok (.jobj fields)) (.error e)).errorLogs =
      ["Order failed: " ++ e] ∧
    ∀ getResp2 : HttpResp,
      (mainRun env args (.ok (.jobj fields)) (.error e)).errorLogs =
        (mainRun env args (.error e) getResp2).errorLogs := by
  have hrun := mainRun_of_ok env args (.ok (.jobj fields)) (.error e) ps hk hs hbuild
  rw [hrun]
  refine ⟨afterPlace_printedResult args ps _ _, afterPlace_placeCalled args ps _ _,
    afterPlace_getCalled_of_truthy args ps fields _ htruthy,
    afterPlace_errorLogs_of_get_error args ps fields e htruthy, ?_⟩
  intro getResp2
  rw [mainRun_of_ok env args (.error e) getResp2 ps hk hs hbuild]
  rw [afterPlace_errorLogs_of_get_error args ps fields e htruthy]

/-- Witness for the amended C6 at a concrete successful placement followed
by a failing status call. -/
theorem C6_amended_get_failure_shares_top_level_handler_witness :
    strOptTruthy (resolvedApiKey argsMarket.api_key envBoth) = true ∧
    strOptTruthy (resolvedApiSecret argsMarket.api_secret envBoth) = true ∧
    buildOrderParams argsMarket =
      .ok (marketParams argsMarket.symbol argsMarket.side argsMarket.quantity) ∧
    (jget [("orderId", JVal.jnum 12345)] "orderId").truthy = true ∧
    ((mainRun envBoth argsMarket (.ok (.jobj [("orderId", .jnum 12345)]))
        (.error "HTTP 500")).printedResult =
      some (.jobj [("orderId", .jnum 12345)]) ∧
     (mainRun envBoth argsMarket (.ok (.jobj [("orderId", .jnum 12345)]))
        (.error "HTTP 500")).placeCalled =
      [marketParams argsMarket.symbol argsMarket.side argsMarket.quantity] ∧
     (mainRun envBoth argsMarket (.ok (.jobj [("orderId", .jnum 12345)]))
        (.error "HTTP 500")).getCalled =
      [getOrderParams argsMarket.symbol
        (jget [("orderId", JVal.jnum 12345)] "orderId")] ∧
     (mainRun envBoth argsMarket (.ok (.jobj [("orderId", .jnum 12345)]))
        (.error "HTTP 500")).errorLogs = ["Order failed: " ++ "HTTP 500"] ∧
     ∀ getResp2 : HttpResp,
       (mainRun envBoth argsMarket (.ok (.jobj [("orderId", .jnum 12345)]))
          (.error "HTTP 500")).errorLogs =
         (mainRun envBoth argsMarket (.error "HTTP 500") getResp2).errorLogs) :=
  ⟨by decide, by decide, rfl, by decide,
   C6_amended_get_failure_shares_top_level_handler envBoth argsMarket
     (marketParams argsMarket.symbol argsMarket.side argsMarket.quantity)
     [("orderId", JVal.jnum 12345)] "HTTP 500"
     (by decide) (by decide) rfl (by decide)⟩

/-! ## Claim C7 -/

/-- C7 counterexample: the program has no local quantity validation.  A
MARKET order with quantity `-1` is not rejected: `place_order` is invoked
with that quantity and no validation error is logged. -/
theorem C7_counterexample :
    argsMarketNegQty.quantity ≤ 0 ∧
    (mainRun envBoth argsMarketNegQty (.ok (.jobj [])) (.ok .null)).placeCalled =
      [[("symbol", .jstr "BTCUSDT"), ("side", .jstr "BUY"),
        ("type", .jstr "MARKET"), ("quantity", .jnum (-1))]] ∧
    (mainRun envBoth argsMarketNegQty (.ok (.jobj [])) (.ok .null)).errorLogs = [] :=
  ⟨by decide, rfl, rfl⟩

/-- C7 amended: validation does not inspect `quantity` at all.  For every
order request that passes the kind-specific field checks — even one with
`quantity ≤ 0` — the workflow invokes `placeOrder`, passing the
unvalidated quantity through on the wire; rejection is left entirely to
the exchange. -/
theorem C7_amended_no_quantity_validation (env : Env) (args : Args)
    (placeResp getResp : HttpResp) (ps : JParams)
    (hk : strOptTruthy (resolvedApiKey args.api_key env) = true)
    (hs : strOptTruthy (resolvedApiSecret args.api_secret env) = true)
    (hbuild : buildOrderParams args = .ok ps)
    (_hq : args.quantity ≤ 0) :
    (mainRun env args placeResp getResp).placeCalled = [ps] ∧
    dictGet ps "quantity" = some (.jnum args.quantity) := by
  have hplace := mainRun_placeCalled env args placeResp getResp ps hk hs hbuild
  refine ⟨hplace, ?_⟩
  unfold buildOrderParams at hbuild
  split_ifs at hbuild <;>
    (injection hbuild with hbuild
     subst hbuild
     simp [marketParams, limitParams, stopParams, dictGet])

/-- Witness for the amended C7: the concrete MARKET order with quantity
`-1` reaches placement with that quantity on the wire. -/
theorem C7_amended_no_quantity_validation_witness :
    strOptTruthy (resolvedApiKey argsMarketNegQty.api_key envBoth) = true ∧
    strOptTruthy (resolvedApiSecret argsMarketNegQty.api_secret envBoth) = true ∧
    buildOrderParams argsMarketNegQty =
      .ok (marketParams argsMarketNegQty.symbol argsMarketNegQty.side
        argsMarketNegQty.quantity) ∧
    argsMarketNegQty.quantity ≤ 0 ∧
    ((mainRun envBoth argsMarketNegQty (.ok (.jobj [])) (.ok .null)).placeCalled =
      [marketParams argsMarketNegQty.symbol argsMarketNegQty.side
        argsMarketNegQty.quantity] ∧
     dictGet (marketParams argsMarketNegQty.symbol argsMarketNegQty.side
        argsMarketNegQty.quantity) "quantity" =
      some (.jnum argsMarketNegQty.quantity)) :=
  ⟨by decide, by decide, rfl, by decide,
   C7_amended_no_quantity_validation envBoth argsMarketNegQty
     (.ok (.jobj [])) (.ok .null)
     (marketParams argsMarketNegQty.symbol argsMarketNegQty.side
       argsMarketNegQty.quantity)
     (by decide) (by decide) rfl (by decide)⟩

end TradingBot
